import Mathlib

/-!
Shallow embedding of the reddit-samsung-monitor ingestion and backfill engine.

Each definition translates one function of the repository (the Python file and
function are named in its doc comment).  The store (PostgreSQL table
`samsung_posts`) is modelled as a list of rows in insertion order; upstream
HTTP calls are modelled by passing their decoded result (or failure outcome)
as an explicit argument; exceptions raised and caught by the code are modelled
with `Except` or with explicit outcome flags.
-/

/-- A canonical Reddit post record: the fields produced by
`RedditClient._extract_post_data` (src/src/reddit_client.py), carried by the
`RedditPost` pydantic model (src/src/models.py) and stored as one row of the
`samsung_posts` table (src/src/database.py).  `created_utc` is a Unix
timestamp (`BIGINT` column, Python unbounded int). -/
structure RedditPost where
  post_id : String
  title : String
  author : String
  created_utc : Int
  score : Int
  num_comments : Int
  url : String
  selftext : String
  permalink : String
  subreddit : String
deriving Repr, DecidableEq

/-- `Database.insert_post` (src/src/database.py): `INSERT ... ON CONFLICT
(post_id) DO NOTHING`, returning `True` iff `cursor.rowcount > 0`, i.e. iff no
row with the same `post_id` already existed.  A duplicate insert leaves the
table unchanged. -/
def Database.insert_post (db : List RedditPost) (p : RedditPost) :
    Bool × List RedditPost :=
  if db.any (fun r => r.post_id == p.post_id) then (false, db)
  else (true, db ++ [p])

/-- `Database.insert_post` including its `except psycopg2.Error` branch: when
the store write raises (`dberr = true`), the exception is caught inside
`insert_post`, the transaction is rolled back (table unchanged) and `False`
is returned — the caller cannot distinguish this from a duplicate. -/
def Database.insert_post_err (db : List RedditPost) (p : RedditPost)
    (dberr : Bool) : Bool × List RedditPost :=
  if dberr then (false, db) else Database.insert_post db p

/-- The SQL aggregate `MAX(created_utc)` over the rows of one subreddit, with
the Python-side default `0` when the subreddit has no rows (the `result_dict`
is initialized to `0` for every requested subreddit and `row['latest_time'] or
0` keeps genuine values). -/
def Database.latest_time (db : List RedditPost) (sub : String) : Int :=
  match db.filter (fun r => r.subreddit == sub) with
  | [] => 0
  | r :: rs => rs.foldl (fun m x => max m x.created_utc) r.created_utc

/-- `Database.get_latest_post_times_by_subreddit` (src/src/database.py):
`SELECT subreddit, MAX(created_utc) ... GROUP BY subreddit` for the requested
subreddits, returned as a dictionary that maps every requested subreddit to
its latest stored `created_utc`, or `0` when it has no stored posts. -/
def Database.get_latest_post_times_by_subreddit (db : List RedditPost)
    (subreddits : List String) : List (String × Int) :=
  subreddits.map (fun s => (s, Database.latest_time db s))

/-- Folding a sequence of commits (`Database.insert_post` calls) into the
store, keeping only the resulting table contents. -/
def commitList (db : List RedditPost) (ps : List RedditPost) :
    List RedditPost :=
  ps.foldl (fun d p => (Database.insert_post d p).2) db

/-- A raw Reddit API post object as it appears in `data.children[i].data`:
every field the code reads through `post.get(key, default)`, `none` standing
for an absent key. -/
structure RawPost where
  id : Option String
  title : Option String
  author : Option String
  created_utc : Option Int
  score : Option Int
  num_comments : Option Int
  url : Option String
  selftext : Option String
  permalink : Option String
  subreddit : Option String
deriving Repr, DecidableEq

/-- One element of `data.children` in a Reddit listing response: a `kind`
tag (`"t3"` for a link/post) and the post payload. -/
structure Child where
  kind : String
  data : RawPost
deriving Repr, DecidableEq

/-- The outcome of one upstream page request made by the client:
`ok children` — HTTP 2xx with a well-formed listing body;
`badShape` — HTTP 2xx JSON body without `data`/`children` keys;
`netErr` — `requests.exceptions.RequestException` raised;
`parseErr` — `ValueError` raised while decoding JSON. -/
inductive FetchOutcome where
  | ok (children : List Child)
  | badShape
  | netErr
  | parseErr
deriving Repr, DecidableEq

/-- Observable effects of one client call: the HTTP request itself and the
`time.sleep(self.rate_limit_delay)` rate-limit pause. -/
inductive Ev where
  | request
  | sleep
deriving Repr, DecidableEq

/-- `RedditClient._extract_post_data` (src/src/reddit_client.py): applies the
`post.get(key, default)` defaults and prefixes a non-empty permalink with
`https://reddit.com`. -/
def extract_post_data (post : RawPost) : RedditPost :=
  { post_id := post.id.getD ""
    title := post.title.getD ""
    author := post.author.getD "[deleted]"
    created_utc := post.created_utc.getD 0
    score := post.score.getD 0
    num_comments := post.num_comments.getD 0
    url := post.url.getD ""
    selftext := post.selftext.getD ""
    permalink := match post.permalink with
      | some s => if s ≠ "" then "https://reddit.com" ++ s else ""
      | none => ""
    subreddit := post.subreddit.getD "samsung" }

/-- `RedditClient.fetch_new_posts` (src/src/reddit_client.py), as a function
of the upstream response `o` and the `after` frontier timestamp.  Returns the
posts the function returns together with the trace of its effects:
on a well-formed response it keeps every `t3` child, filtered (when `after`
is supplied) to those with `created_utc > after`, and then sleeps for
`rate_limit_delay`; on a response without `data`/`children` it returns early
with no posts and no sleep; when the request or the JSON decoding raises, the
handler logs and falls through to `return posts` with no sleep. -/
def fetch_new_posts (o : FetchOutcome) (after : Option Int) :
    List RedditPost × List Ev :=
  match o with
  | .ok children =>
      (children.filterMap (fun c =>
        if c.kind == "t3" then
          let pd := extract_post_data c.data
          if (match after with
              | none => true
              | some a => decide (a < pd.created_utc)) then some pd else none
        else none),
       [.request, .sleep])
  | .badShape => ([], [.request])
  | .netErr => ([], [.request])
  | .parseErr => ([], [.request])

/-- Per-item events logged by one `RedditMonitor.fetch_and_store_posts` cycle
(src/src/monitor.py together with `Database.insert_post`):
`stored`/`duplicate` for the two return values of `insert_post`, `dbError`
for the `psycopg2.Error` logged and swallowed inside `insert_post`. -/
inductive LogEv where
  | stored (id : String)
  | duplicate (id : String)
  | dbError (id : String)
deriving Repr, DecidableEq

/-- State threaded through one monitoring cycle: the store contents, the
cycle's newly-stored counter, the `MonitorStats.errors_count` delta, the
`MonitorStats.last_post_time` high-water mark, the emitted log events and the
`post_id`s of the items the per-item loop body ran on. -/
structure CycleState where
  db : List RedditPost
  newCount : Nat
  errCount : Nat
  lastPostTime : Option Int
  log : List LogEv
  attempted : List String
deriving Repr, DecidableEq

/-- The per-item body of the loop in `RedditMonitor.fetch_and_store_posts`
(src/src/monitor.py): convert via `RedditPost.from_reddit_data` (the identity
on an already-extracted record, since `_extract_post_data` supplies every
key) and commit via `Database.insert_post`.  `errs` lists the `post_id`s
whose store write raises `psycopg2.Error`; that error is caught inside
`insert_post` (logged, rollback, `False`), so the monitor takes the
not-inserted branch and its error counter is untouched. -/
def process_post (errs : List String) (st : CycleState) (p : RedditPost) :
    CycleState :=
  let st := { st with attempted := st.attempted ++ [p.post_id] }
  if errs.contains p.post_id then
    { st with log := st.log ++ [.dbError p.post_id] }
  else
    match Database.insert_post st.db p with
    | (true, db2) =>
        { st with
          db := db2
          newCount := st.newCount + 1
          lastPostTime :=
            (match st.lastPostTime with
             | none => some p.created_utc
             | some t => if t < p.created_utc then some p.created_utc else some t)
          log := st.log ++ [.stored p.post_id] }
    | (false, db2) => { st with db := db2, log := st.log ++ [.duplicate p.post_id] }

/-- `RedditMonitor.fetch_and_store_posts` (src/src/monitor.py) at the outcome
level: `raw_posts` is the list returned by
`fetch_posts_from_multiple_subreddits`, `errs` the injected per-item store
errors, and `totalFail = true` models an exception escaping the cycle body
(e.g. the store connection object being gone), which the enclosing
`except Exception` handler answers by logging, `stats.add_error()` and
`return 0`.  On the normal path the return value is the number of newly
stored posts. -/
def fetch_and_store_posts (db : List RedditPost) (raw_posts : List RedditPost)
    (errs : List String) (totalFail : Bool) : Int × CycleState :=
  let init : CycleState :=
    { db := db, newCount := 0, errCount := 0, lastPostTime := none,
      log := [], attempted := [] }
  if totalFail then (0, { init with errCount := 1 })
  else if raw_posts.isEmpty then (0, init)
  else
    let st := raw_posts.foldl (process_post errs) init
    ((st.newCount : Int), st)

/-- A canonical tweet record: the fields produced by
`TwitterTweet` (src/src/twitter_models.py) and stored as one row of the
`twitter_tweets` table (src/src/database.py), keyed by `tweet_id`. -/
structure TwitterTweet where
  tweet_id : String
  text : String
  author_id : String
  author_username : String
  author_name : String
  author_verified : Bool
  created_at : String
  created_utc : Int
  lang : String
  retweet_count : Int
  like_count : Int
  reply_count : Int
  quote_count : Int
  conversation_id : String
  in_reply_to_user_id : String
  hashtags : String
  referenced_tweets : String
deriving Repr, DecidableEq

/-- `Database.insert_tweet` (src/src/database.py): `INSERT ... ON CONFLICT
(tweet_id) DO NOTHING`, returning `True` iff a row was inserted. -/
def Database.insert_tweet (db : List TwitterTweet) (t : TwitterTweet) :
    Bool × List TwitterTweet :=
  if db.any (fun r => r.tweet_id == t.tweet_id) then (false, db)
  else (true, db ++ [t])

/-- State threaded through one `TwitterMonitor.run_once` cycle. -/
structure TwCycleState where
  db : List TwitterTweet
  newCount : Nat
  errCount : Nat
  lastTweetId : Option String
deriving Repr, DecidableEq

/-- The per-item body of the loop in `TwitterMonitor.run_once`
(src/src/twitter_monitor.py): convert and commit via
`Database.insert_tweet`; `errs` lists the `tweet_id`s whose store write
raises `psycopg2.Error`, caught inside `insert_tweet` (logged, rollback,
`False`). -/
def process_tweet (errs : List String) (st : TwCycleState) (t : TwitterTweet) :
    TwCycleState :=
  if errs.contains t.tweet_id then st
  else
    match Database.insert_tweet st.db t with
    | (true, db2) =>
        { st with db := db2
                  newCount := st.newCount + 1
                  lastTweetId := some t.tweet_id }
    | (false, db2) => { st with db := db2 }

/-- `TwitterMonitor.run_once` (src/src/twitter_monitor.py) at the outcome
level: `tweets` is the list returned by `search_hashtags`, and
`totalFail = true` models an exception escaping the cycle body, which the
enclosing `except Exception` handler answers by logging, `stats.add_error()`
and `return -1`.  An empty fetch returns `0`; otherwise the number of newly
stored tweets is returned. -/
def twitter_run_once (db : List TwitterTweet) (tweets : List TwitterTweet)
    (errs : List String) (totalFail : Bool) : Int × TwCycleState :=
  let init : TwCycleState :=
    { db := db, newCount := 0, errCount := 0, lastTweetId := none }
  if totalFail then (-1, { init with errCount := 1 })
  else if tweets.isEmpty then (0, init)
  else
    let st := tweets.foldl (process_tweet errs) init
    ((st.newCount : Int), st)

/-- One strategy's upstream result set for the backfill engine:
`ok posts` — the finite, fully ordered listing the strategy paginates over;
`err` — every page request for this strategy fails
(`HistoricalBackfillClient.fetch_top_posts` / `fetch_hot_posts` catch the
exception and return `([], None)`). -/
inductive FetchSrc where
  | ok (posts : List RedditPost)
  | err
deriving Repr, DecidableEq

/-- One page request of `HistoricalBackfillClient.fetch_top_posts` /
`fetch_hot_posts` (src/backfill_historical.py) against a finite upstream
result set: the cursor (the opaque `after` token) is the position already
consumed, a page is the next `limit` items, and the returned token is absent
exactly when the listing is exhausted.  An erroring request yields
`([], None)`. -/
def fetch_page (src : FetchSrc) (cursor : Option Nat) (limit : Nat) :
    List RedditPost × Option Nat :=
  match src with
  | .err => ([], none)
  | .ok all =>
      let i := cursor.getD 0
      let page := (all.drop i).take limit
      (page, if i + page.length < all.length then some (i + page.length) else none)

/-- State threaded through `HistoricalBackfill.fetch_with_pagination`
(src/backfill_historical.py): the store, the session dedup set
`existing_post_ids`, `new_posts_count`, `fetched_count`, and the number of
page-fetch calls issued. -/
structure PagState where
  db : List RedditPost
  existing : List String
  newCount : Nat
  fetched : Nat
  calls : Nat
deriving Repr, DecidableEq

/-- The per-page item loop of `HistoricalBackfill.fetch_with_pagination`:
skip items whose `post_id` is in the session dedup set, otherwise commit via
`Database.insert_post`; a successful insert grows the dedup set and the
counter, a conflict (`False`) changes nothing. -/
def process_page (st : PagState) (posts : List RedditPost) : PagState :=
  posts.foldl (fun s p =>
    if s.existing.contains p.post_id then s
    else
      match Database.insert_post s.db p with
      | (true, db2) =>
          { s with db := db2
                   newCount := s.newCount + 1
                   existing := s.existing ++ [p.post_id] }
      | (false, db2) => { s with db := db2 }) st

/-- One loop iteration's bookkeeping after a non-empty page: run the
per-item loop, add the page length to `fetched_count` and count the
page-fetch call. -/
def after_page (st : PagState) (posts : List RedditPost) : PagState :=
  { process_page st posts with
    fetched := st.fetched + posts.length
    calls := st.calls + 1 }

/-- The `while fetched_count < max_posts` loop of
`HistoricalBackfill.fetch_with_pagination` (src/backfill_historical.py):
each iteration requests one page with `limit = min(100, max_posts -
fetched_count)`; an empty page breaks before processing; a non-empty page is
processed, and the loop continues only when a next token was returned
(otherwise it breaks, even on a non-empty page). -/
def pag_loop (src : FetchSrc) (maxPosts : Nat) (cursor : Option Nat)
    (st : PagState) : PagState :=
  if _h : st.fetched < maxPosts then
    match fetch_page src cursor (min 100 (maxPosts - st.fetched)) with
    | ([], _) => { st with calls := st.calls + 1 }
    | (p :: ps, none) => after_page st (p :: ps)
    | (p :: ps, some nt) =>
        pag_loop src maxPosts (some nt) (after_page st (p :: ps))
  else st
termination_by maxPosts - st.fetched
decreasing_by simp [after_page]; omega

/-- `HistoricalBackfill.fetch_with_pagination` (src/backfill_historical.py):
dispatches the method string (`top_*` to `fetch_top_posts` with the method's
time filter, `hot` to `fetch_hot_posts` — the upstream environment `env` is
keyed by the method string), starts with no pagination token, and returns
the final loop state; an unknown method logs an error and breaks
immediately. -/
def fetch_with_pagination (env : String → FetchSrc) (method : String)
    (maxPosts : Nat) (db : List RedditPost) (existing : List String) :
    PagState :=
  let st0 : PagState :=
    { db := db, existing := existing, newCount := 0, fetched := 0, calls := 0 }
  if method.startsWith "top_" || method == "hot" then
    pag_loop (env method) maxPosts none st0
  else st0

/-- Result of `HistoricalBackfill.backfill_subreddit_comprehensive`: the
final store, the final session dedup set, and `total_new_posts`. -/
structure BackfillResult where
  db : List RedditPost
  existing : List String
  total : Nat
deriving Repr, DecidableEq

/-- `HistoricalBackfill.backfill_subreddit_comprehensive`
(src/backfill_historical.py): method 1 fetches top posts of all time with
the full `max_posts_per_method` budget, method 2 fetches top posts of the
past year, month and week with `max_posts_per_method // 3` each, method 3
fetches hot posts with `max_posts_per_method // 2`; `total_new_posts`
accumulates the per-strategy counts. -/
def backfill_subreddit_comprehensive (env : String → FetchSrc)
    (db : List RedditPost) (existing : List String)
    (maxPostsPerMethod : Nat) : BackfillResult :=
  let s1 := fetch_with_pagination env "top_all" maxPostsPerMethod db existing
  let s2 := fetch_with_pagination env "top_year" (maxPostsPerMethod / 3)
    s1.db s1.existing
  let s3 := fetch_with_pagination env "top_month" (maxPostsPerMethod / 3)
    s2.db s2.existing
  let s4 := fetch_with_pagination env "top_week" (maxPostsPerMethod / 3)
    s3.db s3.existing
  let s5 := fetch_with_pagination env "hot" (maxPostsPerMethod / 2)
    s4.db s4.existing
  { db := s5.db
    existing := s5.existing
    total := s1.newCount + s2.newCount + s3.newCount + s4.newCount + s5.newCount }

/-- The strategy schedule as the spec words it: the priority order is
all-time top, then top-by-period for decreasing windows (year, month, week),
then trending/hot; the all-time strategy receives the full top-level share
`B`, one further top-level share is split across the three shorter windows,
and trending receives half of one top-level share (`B` divided by 2). -/
def specSchedule (B : Nat) : List (String × Nat) :=
  [("top_all", B), ("top_year", B / 3), ("top_month", B / 3),
   ("top_week", B / 3), ("hot", B / 2)]

/-- Running a list of (method, sub-budget) strategies in order, threading the
store and the session dedup set, and summing the newly-stored counts. -/
def run_schedule (env : String → FetchSrc) (db : List RedditPost)
    (existing : List String) (sched : List (String × Nat)) : BackfillResult :=
  sched.foldl (fun acc m =>
    let s := fetch_with_pagination env m.1 m.2 acc.db acc.existing
    { db := s.db, existing := s.existing, total := acc.total + s.newCount })
    { db := db, existing := existing, total := 0 }

/-- The effect trace of one `HistoricalBackfillClient.fetch_top_posts` /
`fetch_hot_posts` call (src/backfill_historical.py): on a well-formed
response the function returns `(posts, after_token)` from inside the `try`
block, before the `time.sleep(self.rate_limit_delay)` line, so no sleep
happens; only a response body without `data`/`children` keys falls through
the `if` to the sleep; a raised exception is caught with no sleep. -/
def fetch_top_posts_events : FetchOutcome → List Ev
  | .ok _ => [.request]
  | .badShape => [.request, .sleep]
  | .netErr => [.request]
  | .parseErr => [.request]

/-- A Python attribute value, as far as the configuration code inspects one. -/
inductive PyVal where
  | str (s : String)
  | int (i : Int)
  | list (l : List String)
deriving Repr, DecidableEq

/-- The Python exceptions the configuration code can raise. -/
inductive PyErr where
  | attributeError
  | valueError
deriving Repr, DecidableEq

/-- The `Config` pydantic model (src/src/models.py): its complete field
list.  It defines `subreddits` (a list) and no field named `subreddit`. -/
structure Config where
  db_host : String
  db_user : String
  db_password : String
  db_name : String
  db_port : Int
  subreddits : List String
  poll_interval : Int
  batch_size : Int
  log_level : String
  user_agent : String
deriving Repr, DecidableEq

/-- Python attribute access on a `Config` value: one case per field declared
by the model in src/src/models.py; any other attribute name raises
`AttributeError` (pydantic models reject unknown attributes), which is
modelled as `none`. -/
def Config.attr (c : Config) : String → Option PyVal
  | "db_host" => some (.str c.db_host)
  | "db_user" => some (.str c.db_user)
  | "db_password" => some (.str c.db_password)
  | "db_name" => some (.str c.db_name)
  | "db_port" => some (.int c.db_port)
  | "subreddits" => some (.list c.subreddits)
  | "poll_interval" => some (.int c.poll_interval)
  | "batch_size" => some (.int c.batch_size)
  | "log_level" => some (.str c.log_level)
  | "user_agent" => some (.str c.user_agent)
  | _ => none

/-- Python `s.split(',')`: the comma-separated pieces of the string. -/
def pySplitComma (s : String) : List String :=
  (s.data.splitOn ',').map (fun cs => String.mk cs)

/-- Python `s.strip()`: the string without leading and trailing whitespace. -/
def pyStrip (s : String) : String :=
  String.mk
    (((s.data.dropWhile Char.isWhitespace).reverse.dropWhile
      Char.isWhitespace).reverse)

/-- The decimal digits of a Python int literal, `none` when empty or when a
non-digit occurs. -/
def parseNatDigits : List Char → Option Nat
  | [] => none
  | cs => cs.foldl (fun acc c =>
      match acc with
      | none => none
      | some n => if c.isDigit then some (n * 10 + (c.toNat - 48)) else none)
      (some 0)

/-- Python `int(s)` on a string: surrounding whitespace and an optional sign
are accepted; anything else raises `ValueError`. -/
def pyInt (s : String) : Except PyErr Int :=
  let r : Option Int :=
    match (pyStrip s).data with
    | [] => none
    | '-' :: cs => (parseNatDigits cs).map (fun n => -(n : Int))
    | '+' :: cs => (parseNatDigits cs).map (fun n => (n : Int))
    | cs => (parseNatDigits cs).map (fun n => (n : Int))
  match r with
  | some n => Except.ok n
  | none => Except.error PyErr.valueError

/-- `Config.from_env` (src/src/models.py): reads the environment (modelled as
the `getenv` map), splits `SUBREDDITS` on commas, strips whitespace and drops
empty entries, and parses the three numeric variables with `int()` (which can
raise `ValueError`). -/
def Config.from_env (getenv : String → Option String) : Except PyErr Config := do
  let subreddits_env := (getenv "SUBREDDITS").getD "samsung,technology"
  let subreddits :=
    ((pySplitComma subreddits_env).map pyStrip).filter (fun s => s ≠ "")
  let db_port ← pyInt ((getenv "DB_PORT").getD "6432")
  let poll_interval ← pyInt ((getenv "POLL_INTERVAL").getD "60")
  let batch_size ← pyInt ((getenv "BATCH_SIZE").getD "25")
  Except.ok
    { db_host := (getenv "DB_HOST").getD "localhost"
      db_user := (getenv "DB_USER").getD "adgear"
      db_password := (getenv "DB_PASSWORD").getD ""
      db_name := (getenv "DB_NAME").getD "metadataservice"
      db_port := db_port
      subreddits := subreddits
      poll_interval := poll_interval
      batch_size := batch_size
      log_level := (getenv "LOG_LEVEL").getD "INFO"
      user_agent := (getenv "USER_AGENT").getD "RedditMultiMonitor/1.0" }

/-- The subreddit-name check of `validate_config` (src/src/config.py) on the
value of `config.subreddit`, were that attribute ever obtained:
`not sub or not sub.replace('_','').replace('-','').isalnum()`. -/
def subreddit_name_invalid : PyVal → Bool
  | .str s =>
      let t := (s.replace "_" "").replace "-" ""
      s == "" || !(t ≠ "" && t.toList.all Char.isAlphanum)
  | _ => true

/-- `validate_config` (src/src/config.py): collects error strings for the
database, poll-interval and batch-size checks, then evaluates
`config.subreddit` for the subreddit-name check.  The `Config` model has no
`subreddit` attribute, so this access raises `AttributeError`; otherwise the
function would return `True` iff no error string was collected. -/
def validate_config (c : Config) : Except PyErr Bool := do
  let errors : List String :=
    (if c.db_host = "" then ["Database host is required"] else [])
    ++ (if c.db_user = "" then ["Database user is required"] else [])
    ++ (if c.db_name = "" then ["Database name is required"] else [])
    ++ (if c.db_port ≤ 0 ∨ 65535 < c.db_port then
          ["Database port must be between 1 and 65535"] else [])
    ++ (if c.poll_interval < 10 then
          ["Poll interval must be at least 10 seconds to respect rate limits"]
        else [])
    ++ (if c.batch_size < 1 ∨ 100 < c.batch_size then
          ["Batch size must be between 1 and 100"] else [])
  let sub ← (match Config.attr c "subreddit" with
             | some v => Except.ok v
             | none => Except.error PyErr.attributeError)
  let errors := errors ++
    (if subreddit_name_invalid sub then ["Invalid subreddit name"] else [])
  pure errors.isEmpty

/-- `print_config_summary` (src/src/config.py) also reads
`config.subreddit`, so it too would raise `AttributeError` if it were ever
reached. -/
def print_config_summary (c : Config) : Except PyErr Unit :=
  match Config.attr c "subreddit" with
  | some _ => Except.ok ()
  | none => Except.error PyErr.attributeError

/-- The environment `RedditMonitor.initialize` runs in: the process
environment variables and the outcomes of each fallible collaborator call
the method makes before and after configuration validation. -/
structure InitEnv where
  getenv : String → Option String
  loadEnvRaises : Bool
  setupLoggingRaises : Bool
  dbConnectOk : Bool
  createTablesOk : Bool
  redditConnOk : Bool
deriving Inhabited

/-- `RedditMonitor.initialize` (src/src/monitor.py): the whole body runs
inside `try ... except Exception: return False`.  It loads the environment,
builds the config with `Config.from_env`, sets up logging, runs
`validate_config` (returning `False` if that yields `False`), prints the
config summary, connects to the store, creates tables, and tests the Reddit
API connection; any raised exception is caught and `False` returned. -/
def monitor_init (env : InitEnv) : Bool :=
  if env.loadEnvRaises then false
  else
    match Config.from_env env.getenv with
    | .error _ => false
    | .ok config =>
      if env.setupLoggingRaises then false
      else
        match validate_config config with
        | .error _ => false
        | .ok valid =>
          if !valid then false
          else
            match print_config_summary config with
            | .error _ => false
            | .ok _ =>
              if !env.dbConnectOk then false
              else if !env.createTablesOk then false
              else if !env.redditConnOk then false
              else true

/-- Items remaining in a strategy's upstream result set beyond a cursor. -/
def srcRem : FetchSrc → Option Nat → Nat
  | .err, _ => 0
  | .ok all, c => all.length - c.getD 0

/-- Total size of a strategy's finite upstream result set. -/
def srcTotal : FetchSrc → Nat
  | .err => 0
  | .ok all => all.length

/-- A concrete post record used in scenarios and witnesses. -/
def samplePost (i : String) (t : Int) (sub : String) : RedditPost :=
  { post_id := i, title := "", author := "", created_utc := t, score := 0,
    num_comments := 0, url := "", selftext := "", permalink := "",
    subreddit := sub }

/-- A concrete `t3` listing child used in the frontier scenario. -/
def sampleChild (i : String) (t : Int) : Child :=
  { kind := "t3"
    data := { id := some i, title := none, author := none,
              created_utc := some t, score := none, num_comments := none,
              url := none, selftext := none, permalink := none,
              subreddit := some "alpha" } }

/-- Scenario store: partition `alpha` holds one post at time 1000, so its
frontier is 1000. -/
def alphaDb : List RedditPost := [samplePost "base" 1000 "alpha"]

/-- Scenario page: a `latest` fetch returning items with creation times
1200, 1100, 999 and 50, newest first. -/
def alphaChildren : List Child :=
  [sampleChild "a" 1200, sampleChild "b" 1100, sampleChild "c" 999,
   sampleChild "d" 50]

/-- The scenario frontier, as the monitor obtains it from the store. -/
def alphaFrontier : Int :=
  ((Database.get_latest_post_times_by_subreddit alphaDb
      ["alpha"]).lookup "alpha").getD 0

/-- The posts the scenario fetch returns against the frontier. -/
def alphaFetched : List RedditPost :=
  (fetch_new_posts (.ok alphaChildren) (some alphaFrontier)).1

/-- The `Config` that `Config.from_env` produces on an empty environment
(every model default applies). -/
def defaultEnvConfig : Config :=
  { db_host := "localhost", db_user := "adgear", db_password := "",
    db_name := "metadataservice", db_port := 6432,
    subreddits := ["samsung", "technology"], poll_interval := 60,
    batch_size := 25, log_level := "INFO",
    user_agent := "RedditMultiMonitor/1.0" }

/-- Claim C2: committing the same item (same `post_id`) twice against the
store yields `True` (stored) exactly once — a fresh `post_id` always inserts
— and `False` (duplicate) on every subsequent commit, which leaves the store
contents unchanged; rows, once stored, persist through later commits, so the
duplicate answer is permanent regardless of session state. -/
theorem c2_commit_idempotent :
    (∀ (db : List RedditPost) (p : RedditPost),
        (∀ r ∈ db, r.post_id ≠ p.post_id) →
        Database.insert_post db p = (true, db ++ [p])) ∧
    (∀ (db : List RedditPost) (q r : RedditPost), r ∈ db →
        r.post_id = q.post_id →
        Database.insert_post db q = (false, db)) ∧
    (∀ (db : List RedditPost) (p r : RedditPost), r ∈ db →
        r ∈ (Database.insert_post db p).2) := by
  refine ⟨?_, ?_, ?_⟩
  · intro db p h
    have hany : db.any (fun r => r.post_id == p.post_id) = false := by
      simp only [List.any_eq_false, beq_iff_eq]
      exact h
    simp [Database.insert_post, hany]
  · intro db q r hr he
    have hany : db.any (fun x => x.post_id == q.post_id) = true := by
      simp only [List.any_eq_true, beq_iff_eq]
      exact ⟨r, hr, he⟩
    simp [Database.insert_post, hany]
  · intro db p r hr
    simp only [Database.insert_post]
    split
    · exact hr
    · exact List.mem_append_left _ hr

/-- Witness for C2: a concrete first commit stores, a same-id recommit
reports duplicate and changes nothing, and stored rows persist. -/
theorem c2_commit_idempotent_witness :
    Database.insert_post [] (samplePost "a" 1 "s") =
      (true, [samplePost "a" 1 "s"]) ∧
    Database.insert_post [samplePost "a" 1 "s"] (samplePost "a" 2 "s") =
      (false, [samplePost "a" 1 "s"]) ∧
    samplePost "a" 1 "s" ∈
      (Database.insert_post [samplePost "a" 1 "s"] (samplePost "b" 3 "s")).2 :=
  ⟨c2_commit_idempotent.1 [] _ (by simp),
   c2_commit_idempotent.2.1 _ _ (samplePost "a" 1 "s") (by simp) rfl,
   c2_commit_idempotent.2.2 _ _ _ (by simp)⟩

lemma latest_time_insert_mono (db : List RedditPost) (p : RedditPost)
    (sub : String) (hp : 0 ≤ p.created_utc) :
    Database.latest_time db sub ≤
      Database.latest_time (Database.insert_post db p).2 sub := by
  simp only [Database.insert_post]
  split
  · exact le_refl _
  · show Database.latest_time db sub ≤ Database.latest_time (db ++ [p]) sub
    simp only [Database.latest_time, List.filter_append]
    by_cases h : (p.subreddit == sub) = true
    · have hfp : List.filter (fun r => r.subreddit == sub) [p] = [p] := by
        simp [h]
      rw [hfp]
      cases hdb : List.filter (fun r => r.subreddit == sub) db with
      | nil => simpa using hp
      | cons r rs =>
          simp only [List.cons_append]
          rw [List.foldl_append]
          simp only [List.foldl_cons, List.foldl_nil]
          exact le_max_left _ _
    · have hfp : List.filter (fun r => r.subreddit == sub) [p] = [] := by
        simp [h]
      rw [hfp, List.append_nil]

lemma latest_time_commitList_mono (ps : List RedditPost) :
    ∀ (db : List RedditPost) (sub : String),
      (∀ p ∈ ps, 0 ≤ p.created_utc) →
      Database.latest_time db sub ≤
        Database.latest_time (commitList db ps) sub := by
  induction ps with
  | nil => intro db sub _; exact le_refl _
  | cons p ps ih =>
      intro db sub h
      have h1 := latest_time_insert_mono db p sub (h p (List.mem_cons_self p ps))
      have h2 := ih (Database.insert_post db p).2 sub
        (fun q hq => h q (List.mem_cons_of_mem p hq))
      exact le_trans h1 h2

lemma lookup_map_self (subs : List String) (f : String → Int) (s : String)
    (hs : s ∈ subs) :
    List.lookup s (subs.map (fun t => (t, f t))) = some (f s) := by
  induction subs with
  | nil => cases hs
  | cons t ts ih =>
      simp only [List.map_cons, List.lookup]
      by_cases h : s = t
      · subst h; simp
      · have hb : (s == t) = false := by simp [h]
        rw [hb]
        exact ih (by
          rcases List.mem_cons.1 hs with h1 | h1
          · exact absurd h1 h
          · exact h1)

/-- Claim C3: over any sequence of commits of items carrying (non-negative
Unix) creation timestamps, the frontier each partition shows through
`get_latest_post_times_by_subreddit` — the maximum stored `created_utc` of
that subreddit — never decreases: commits only add rows, so the maximum is
non-decreasing. -/
theorem c3_frontier_monotone :
    ∀ (db ps : List RedditPost) (subs : List String) (sub : String),
      sub ∈ subs → (∀ p ∈ ps, 0 ≤ p.created_utc) →
      ((Database.get_latest_post_times_by_subreddit db subs).lookup
          sub).getD 0 ≤
      ((Database.get_latest_post_times_by_subreddit (commitList db ps)
          subs).lookup sub).getD 0 := by
  intro db ps subs sub hs hp
  simp only [Database.get_latest_post_times_by_subreddit]
  rw [lookup_map_self subs _ sub hs, lookup_map_self subs _ sub hs]
  simpa using latest_time_commitList_mono ps db sub hp

/-- Witness for C3: committing one concrete post into the empty store does
not move partition `alpha`'s observed frontier backward. -/
theorem c3_frontier_monotone_witness :
    ((Database.get_latest_post_times_by_subreddit [] ["alpha"]).lookup
        "alpha").getD 0 ≤
    ((Database.get_latest_post_times_by_subreddit
        (commitList [] [samplePost "a" 5 "alpha"]) ["alpha"]).lookup
        "alpha").getD 0 :=
  c3_frontier_monotone [] [samplePost "a" 5 "alpha"] ["alpha"] "alpha"
    (by decide) (by decide)

lemma fetch_filterMap (children : List Child) (cond : RedditPost → Bool) :
    (children.filterMap (fun c =>
      if c.kind == "t3" then
        (if cond (extract_post_data c.data) then some (extract_post_data c.data)
         else none)
      else none)) =
    ((children.filter (fun c => c.kind == "t3")).map
      (fun c => extract_post_data c.data)).filter cond := by
  induction children with
  | nil => rfl
  | cons c cs ih =>
      simp only [List.filterMap_cons, List.filter_cons]
      cases hk : (c.kind == "t3") with
      | false => simpa [hk] using ih
      | true =>
          simp only [hk, if_true, List.map_cons, List.filter_cons]
          cases hc : cond (extract_post_data c.data) with
          | false => simpa [hc] using ih
          | true => simpa [hc] using ih

/-- Claim C1: with a supplied frontier `after`, `fetch_new_posts` returns
exactly the fetched (`t3`) posts whose `created_utc` is strictly greater
than `after`; with `after = None` no post is filtered out; and in the
concrete scenario — frontier 1000, page with creation times
[1200, 1100, 999, 50] — the posts at 1200 and 1100 are returned and stored,
the posts at 999 and 50 are skipped, and the partition's frontier (maximum
stored `created_utc`) becomes 1200. -/
theorem c1_frontier_filter :
    (∀ (children : List Child) (a : Int),
        (fetch_new_posts (.ok children) (some a)).1 =
          ((children.filter (fun c => c.kind == "t3")).map
            (fun c => extract_post_data c.data)).filter
            (fun p => a < p.created_utc)) ∧
    (∀ children : List Child,
        (fetch_new_posts (.ok children) none).1 =
          (children.filter (fun c => c.kind == "t3")).map
            (fun c => extract_post_data c.data)) ∧
    (alphaFrontier = 1000 ∧
     alphaFetched.map (fun p => p.post_id) = ["a", "b"] ∧
     alphaFetched.map (fun p => p.created_utc) = [1200, 1100] ∧
     (commitList alphaDb alphaFetched).map (fun p => p.post_id) =
       ["base", "a", "b"] ∧
     Database.latest_time (commitList alphaDb alphaFetched) "alpha" = 1200) := by
  refine ⟨?_, ?_, ?_⟩
  · intro children a
    exact fetch_filterMap children (fun pd => decide (a < pd.created_utc))
  · intro children
    exact (fetch_filterMap children (fun _ => true)).trans (by simp)
  · refine ⟨by decide, by decide, by decide, by decide, by decide⟩

lemma after_page_calls (st : PagState) (posts : List RedditPost) :
    (after_page st posts).calls = st.calls + 1 := rfl

lemma after_page_fetched (st : PagState) (posts : List RedditPost) :
    (after_page st posts).fetched = st.fetched + posts.length := rfl

lemma pag_loop_calls_le (src : FetchSrc) (maxPosts : Nat) :
    ∀ (cursor : Option Nat) (st : PagState),
      (pag_loop src maxPosts cursor st).calls ≤
        st.calls + (srcRem src cursor + 99) / 100 + 1 := by
  apply pag_loop.induct src maxPosts
    (motive := fun cursor st =>
      (pag_loop src maxPosts cursor st).calls ≤
        st.calls + (srcRem src cursor + 99) / 100 + 1)
  · intro cursor st h snd heq
    rw [pag_loop]
    simp only [dif_pos h, heq]
    omega
  · intro cursor st h p ps heq
    rw [pag_loop]
    simp only [dif_pos h, heq, after_page_calls]
    omega
  · intro cursor st h p ps nt heq ih
    cases src with
    | err => simp [fetch_page] at heq
    | ok all =>
        rw [pag_loop]
        simp only [dif_pos h, heq]
        rw [after_page_calls] at ih
        have heq2 := heq
        simp only [fetch_page] at heq2
        have hp := congrArg Prod.fst heq2
        have ht := congrArg Prod.snd heq2
        dsimp only at hp ht
        rw [hp] at ht
        have hlen : (p :: ps).length =
            min (min 100 (maxPosts - st.fetched))
              (all.length - cursor.getD 0) := by
          rw [← hp]
          simp [List.length_take, List.length_drop]
        have hnt : cursor.getD 0 + (p :: ps).length < all.length ∧
            cursor.getD 0 + (p :: ps).length = nt := by
          rcases Classical.em
            (cursor.getD 0 + (p :: ps).length < all.length) with hc | hc
          · rw [if_pos hc] at ht
            exact ⟨hc, Option.some.inj ht⟩
          · rw [if_neg hc] at ht
            cases ht
        obtain ⟨hlt, hntEq⟩ := hnt
        by_cases h2 : st.fetched + (p :: ps).length < maxPosts
        · refine le_trans ih ?_
          simp only [srcRem, Option.getD_some]
          simp only [List.length_cons] at hlen hlt hntEq h2 ⊢
          omega
        · rw [pag_loop]
          rw [dif_neg (by rw [after_page_fetched]; omega)]
          simp only [after_page_calls, srcRem]
          simp only [List.length_cons] at hlen hlt hntEq h2 ⊢
          omega
  · intro cursor st h
    rw [pag_loop]
    simp only [dif_neg h]
    omega

lemma pag_loop_fetched_le (src : FetchSrc) (maxPosts : Nat) :
    ∀ (cursor : Option Nat) (st : PagState), st.fetched ≤ maxPosts →
      (pag_loop src maxPosts cursor st).fetched ≤ maxPosts := by
  apply pag_loop.induct src maxPosts
    (motive := fun cursor st => st.fetched ≤ maxPosts →
      (pag_loop src maxPosts cursor st).fetched ≤ maxPosts)
  · intro cursor st h snd heq hle
    rw [pag_loop]
    simp only [dif_pos h, heq]
    exact hle
  · intro cursor st h p ps heq hle
    rw [pag_loop]
    simp only [dif_pos h, heq, after_page_fetched]
    have : (p :: ps).length ≤ min 100 (maxPosts - st.fetched) := by
      cases src with
      | err => simp [fetch_page] at heq
      | ok all =>
          have hp := congrArg Prod.fst heq
          simp only [fetch_page] at hp
          rw [← hp]
          exact List.length_take_le _ _
    omega
  · intro cursor st h p ps nt heq ih hle
    rw [pag_loop]
    simp only [dif_pos h, heq]
    have hlen : (p :: ps).length ≤ min 100 (maxPosts - st.fetched) := by
      cases src with
      | err => simp [fetch_page] at heq
      | ok all =>
          have hp := congrArg Prod.fst heq
          simp only [fetch_page] at hp
          rw [← hp]
          exact List.length_take_le _ _
    refine ih ?_
    rw [after_page_fetched]
    omega
  · intro cursor st h hle
    rw [pag_loop]
    simp only [dif_neg h]
    exact hle

/-- Claim C4: for any finite upstream result set, the pagination loop
terminates (it is a total function that stops on an empty page, an absent
next-cursor, or an exhausted item budget), never fetches beyond its item
budget, and issues at most `⌈total items / page size⌉ + 1` page-fetch
calls, with the platform page-size maximum of 100. -/
theorem c4_pagination_terminates_bounded :
    ∀ (env : String → FetchSrc) (method : String) (maxPosts : Nat)
      (db : List RedditPost) (existing : List String),
      (fetch_with_pagination env method maxPosts db existing).calls ≤
        (srcTotal (env method) + 99) / 100 + 1 ∧
      (fetch_with_pagination env method maxPosts db existing).fetched ≤
        maxPosts := by
  intro env method maxPosts db existing
  rw [fetch_with_pagination]
  by_cases hd : (method.startsWith "top_" || method == "hot") = true
  · simp only [hd, if_true]
    constructor
    · have h := pag_loop_calls_le (env method) maxPosts none
        { db := db, existing := existing, newCount := 0, fetched := 0,
          calls := 0 }
      have hrem : srcRem (env method) none = srcTotal (env method) := by
        cases env method <;> rfl
      rw [hrem] at h
      simpa using h
    · exact pag_loop_fetched_le (env method) maxPosts none _ (Nat.zero_le _)
  · simp only [hd]
    exact ⟨Nat.zero_le _, Nat.zero_le _⟩

/-- Claim C5: for every partition and total budget `B`, the backfill
orchestrator is exactly the run of the fixed priority schedule — all-time
top with the full share `B`, then the decreasing windows year, month, week
with `B / 3` each, then trending/hot with `B / 2` — threading the store
through the strategies in that order and summing their newly-stored counts;
and every strategy stops at its sub-budget or its own exhaustion, never
fetching more items than its sub-budget. -/
theorem c5_strategy_schedule :
    (∀ (env : String → FetchSrc) (db : List RedditPost)
        (existing : List String) (B : Nat),
        backfill_subreddit_comprehensive env db existing B =
          run_schedule env db existing (specSchedule B)) ∧
    (∀ (env : String → FetchSrc) (method : String) (maxPosts : Nat)
        (db : List RedditPost) (existing : List String),
        (fetch_with_pagination env method maxPosts db existing).fetched ≤
          maxPosts) := by
  constructor
  · intro env db existing B
    simp only [backfill_subreddit_comprehensive, run_schedule, specSchedule,
      List.foldl_cons, List.foldl_nil]
    simp
  · intro env method maxPosts db existing
    rw [fetch_with_pagination]
    by_cases hd : (method.startsWith "top_" || method == "hot") = true
    · simp only [hd, if_true]
      exact pag_loop_fetched_le (env method) maxPosts none _ (Nat.zero_le _)
    · simp only [hd]
      exact Nat.zero_le _

lemma pag_loop_err_empty (maxPosts : Nat) (c : Option Nat) (st : PagState) :
    pag_loop .err maxPosts c st = pag_loop (.ok []) maxPosts c st := by
  rw [pag_loop, pag_loop]
  by_cases h : st.fetched < maxPosts
  · simp [dif_pos h, fetch_page]
  · simp [dif_neg h]

lemma fwp_err_empty (env : String → FetchSrc) (s : String) :
    ∀ (method : String) (B : Nat) (db : List RedditPost)
      (ex : List String),
      fetch_with_pagination (fun m => if m = s then .err else env m)
          method B db ex =
        fetch_with_pagination (fun m => if m = s then .ok [] else env m)
          method B db ex := by
  intro method B db ex
  rw [fetch_with_pagination, fetch_with_pagination]
  by_cases hm : method = s
  · simp only [hm, if_pos rfl]
    by_cases hd : (s.startsWith "top_" || s == "hot") = true
    · simp only [hd, if_true]
      exact pag_loop_err_empty B none _
    · simp [hd]
  · simp only [if_neg hm]

lemma pag_loop_err_shape (maxPosts : Nat) (c : Option Nat) (st : PagState) :
    pag_loop .err maxPosts c st =
      if st.fetched < maxPosts then { st with calls := st.calls + 1 }
      else st := by
  rw [pag_loop]
  by_cases h : st.fetched < maxPosts
  · simp [dif_pos h, fetch_page, if_pos h]
  · simp [dif_neg h, if_neg h]

/-- Claim C6: a strategy whose upstream fetches error out contributes
nothing but does not abort the partition's backfill — the orchestrator
behaves exactly as if that strategy had returned an empty result set, still
running every other strategy; and when every strategy errors, the
orchestrator still completes, returning total 0 (the sum of the
per-strategy newly-stored counts) with the store unchanged. -/
theorem c6_strategy_failure_isolated :
    (∀ (env : String → FetchSrc) (s : String) (db : List RedditPost)
        (ex : List String) (B : Nat),
        backfill_subreddit_comprehensive
            (fun m => if m = s then .err else env m) db ex B =
          backfill_subreddit_comprehensive
            (fun m => if m = s then .ok [] else env m) db ex B) ∧
    (∀ (db : List RedditPost) (ex : List String) (B : Nat),
        backfill_subreddit_comprehensive (fun _ => .err) db ex B =
          { db := db, existing := ex, total := 0 }) := by
  constructor
  · intro env s db ex B
    simp only [backfill_subreddit_comprehensive]
    simp only [fwp_err_empty env s]
  · intro db ex B
    have hshape : ∀ (method : String) (maxPosts : Nat)
        (d : List RedditPost) (e : List String),
        (fetch_with_pagination (fun _ => FetchSrc.err) method maxPosts
            d e).db = d ∧
        (fetch_with_pagination (fun _ => FetchSrc.err) method maxPosts
            d e).existing = e ∧
        (fetch_with_pagination (fun _ => FetchSrc.err) method maxPosts
            d e).newCount = 0 := by
      intro method maxPosts d e
      rw [fetch_with_pagination]
      by_cases hd : (method.startsWith "top_" || method == "hot") = true
      · simp only [hd, if_true, pag_loop_err_shape]
        split <;> exact ⟨rfl, rfl, rfl⟩
      · simp only [hd]
        exact ⟨rfl, rfl, rfl⟩
    simp only [backfill_subreddit_comprehensive]
    obtain ⟨h1d, h1e, h1n⟩ := hshape "top_all" B db ex
    simp only [h1d, h1e, h1n]
    obtain ⟨h2d, h2e, h2n⟩ := hshape "top_year" (B / 3) db ex
    simp only [h2d, h2e, h2n]
    obtain ⟨h3d, h3e, h3n⟩ := hshape "top_month" (B / 3) db ex
    simp only [h3d, h3e, h3n]
    obtain ⟨h4d, h4e, h4n⟩ := hshape "top_week" (B / 3) db ex
    simp only [h4d, h4e, h4n]
    obtain ⟨h5d, h5e, h5n⟩ := hshape "hot" (B / 2) db ex
    simp only [h5d, h5e, h5n]

lemma process_post_attempted (errs : List String) (st : CycleState)
    (p : RedditPost) :
    (process_post errs st p).attempted = st.attempted ++ [p.post_id] := by
  by_cases h : p.post_id ∈ errs
  · simp [process_post, h]
  · simp only [process_post]
    rcases hins : Database.insert_post
      { st with attempted := st.attempted ++ [p.post_id] }.db p with ⟨b, db2⟩
    cases b <;> simp [h, hins]

/-- Claim C7, corrected: when committing item `k` of a page fails with a
store error, the error is caught and logged inside the store layer, the
monitor's per-item loop moves on — every item of the page is attempted, and
the failure aborts nothing — but the item counts as not-newly-stored
(indistinguishable from a duplicate) and the monitor's error counter is NOT
incremented: the loop body of the failing item changes only the attempted
list and the log. -/
theorem c7_page_continues_after_store_error :
    (∀ (errs : List String) (st : CycleState) (p : RedditPost),
        errs.contains p.post_id = true →
        process_post errs st p =
          { st with attempted := st.attempted ++ [p.post_id]
                    log := st.log ++ [.dbError p.post_id] }) ∧
    (∀ (errs : List String) (st : CycleState) (posts : List RedditPost),
        (posts.foldl (process_post errs) st).attempted =
          st.attempted ++ posts.map (fun p => p.post_id)) := by
  constructor
  · intro errs st p h
    have hm : p.post_id ∈ errs := by simpa using h
    simp [process_post, hm]
  · intro errs st posts
    induction posts generalizing st with
    | nil => simp
    | cons p ps ih =>
        simp only [List.foldl_cons, List.map_cons]
        rw [ih, process_post_attempted]
        simp

/-- Witness for the corrected C7: one concrete item with an injected store
error is logged as a store error, stays out of the store, and leaves the
error counter at zero. -/
theorem c7_page_continues_witness :
    process_post ["p1"]
        { db := [], newCount := 0, errCount := 0, lastPostTime := none,
          log := [], attempted := [] } (samplePost "p1" 5 "s") =
      { db := [], newCount := 0, errCount := 0, lastPostTime := none,
        log := [LogEv.dbError "p1"], attempted := ["p1"] } := by
  have h := c7_page_continues_after_store_error.1 ["p1"]
    { db := [], newCount := 0, errCount := 0, lastPostTime := none,
      log := [], attempted := [] } (samplePost "p1" 5 "s") (by decide)
  simpa using h

/-- Counterexample to C7 as stated: in a concrete page of two items where
the first item's store write errors, both items are attempted and the
second is stored, but the cycle's error counter stays 0 — the claimed
error-counter increment does not happen (the store error surfaces only in
the log). -/
theorem c7_counterexample :
    (fetch_and_store_posts []
        [samplePost "p1" 5 "s", samplePost "p2" 6 "s"] ["p1"]
        false).2.attempted = ["p1", "p2"] ∧
    (fetch_and_store_posts []
        [samplePost "p1" 5 "s", samplePost "p2" 6 "s"] ["p1"]
        false).2.errCount = 0 ∧
    (fetch_and_store_posts []
        [samplePost "p1" 5 "s", samplePost "p2" 6 "s"] ["p1"]
        false).2.newCount = 1 ∧
    (fetch_and_store_posts []
        [samplePost "p1" 5 "s", samplePost "p2" 6 "s"] ["p1"]
        false).2.log = [LogEv.dbError "p1", LogEv.stored "p2"] := by
  refine ⟨by decide, by decide, by decide, by decide⟩

/-- Counterexample to C8 as stated: on total failure the Reddit
fetch-and-store pass returns 0, not a negative sentinel. -/
theorem c8_counterexample :
    (fetch_and_store_posts [] [] [] true).1 = 0 ∧
    ¬ (fetch_and_store_posts [] [] [] true).1 < 0 := by
  refine ⟨by decide, by decide⟩

/-- Claim C8, corrected: the Twitter pass (`run_once`) returns the negative
sentinel -1 on total failure and a non-negative count otherwise, but the
Reddit pass (`fetch_and_store_posts`) returns 0 on total failure — its
return value is never negative, so there "ran, found nothing" and "did not
run" coincide. -/
theorem c8_sentinel_amended :
    (∀ (db tweets : List TwitterTweet) (errs : List String),
        (twitter_run_once db tweets errs true).1 = -1) ∧
    (∀ (db tweets : List TwitterTweet) (errs : List String),
        0 ≤ (twitter_run_once db tweets errs false).1) ∧
    (∀ (db raw : List RedditPost) (errs : List String),
        (fetch_and_store_posts db raw errs true).1 = 0) ∧
    (∀ (db raw : List RedditPost) (errs : List String) (f : Bool),
        0 ≤ (fetch_and_store_posts db raw errs f).1) := by
  refine ⟨?_, ?_, ?_, ?_⟩
  · intro db tweets errs
    rfl
  · intro db tweets errs
    rw [twitter_run_once]
    cases he : tweets.isEmpty <;> simp [he]
  · intro db raw errs
    rfl
  · intro db raw errs f
    rw [fetch_and_store_posts]
    cases f
    · cases he : raw.isEmpty <;> simp [he]
    · simp

/-- Counterexample to C9 as stated: a `fetch_new_posts` call whose request
raises performs no rate-limit sleep, and a fully successful
`fetch_top_posts` call returns before its sleep line — so the inter-request
delay is not applied on every call path. -/
theorem c9_counterexample :
    (fetch_new_posts .netErr none).2 = [Ev.request] ∧
    Ev.sleep ∉ (fetch_new_posts .netErr none).2 ∧
    fetch_top_posts_events (.ok []) = [Ev.request] ∧
    Ev.sleep ∉ fetch_top_posts_events (.ok []) := by
  refine ⟨by decide, by decide, by decide, by decide⟩

/-- Claim C9, corrected: the rate-limit sleep is outcome-dependent, not
uniform — `fetch_new_posts` sleeps exactly when the fetch-and-parse fully
succeeds (transport errors, parse errors and malformed bodies skip it),
and `fetch_top_posts` sleeps exactly on a malformed (`badShape`) body,
returning before the sleep on success and skipping it on errors. -/
theorem c9_sleep_only_on_success_shape :
    (∀ (o : FetchOutcome) (after : Option Int),
        Ev.sleep ∈ (fetch_new_posts o after).2 ↔ ∃ ch, o = .ok ch) ∧
    (∀ o : FetchOutcome,
        Ev.sleep ∈ fetch_top_posts_events o ↔ o = .badShape) := by
  constructor
  · intro o after
    cases o <;> simp [fetch_new_posts]
  · intro o
    cases o <;> simp [fetch_top_posts_events]

lemma validate_config_raises (c : Config) :
    validate_config c = Except.error PyErr.attributeError := by
  simp [validate_config, Config.attr, Except.bind]

/-- Claim C10: the `Config` model defines `subreddits` and no `subreddit`
field, so `validate_config` — which evaluates `config.subreddit` — raises
`AttributeError` on every `Config`, in particular on every config
`Config.from_env` produces; and since `RedditMonitor.initialize` calls it
inside its catch-all exception handler, initialization returns `False` in
every environment: the Reddit monitor can never report successful
initialization. -/
theorem c10_monitor_never_initializes :
    (∀ c : Config, validate_config c = Except.error PyErr.attributeError) ∧
    (∀ (g : String → Option String) (c : Config),
        Config.from_env g = Except.ok c →
        validate_config c = Except.error PyErr.attributeError) ∧
    (∀ env : InitEnv, monitor_init env = false) := by
  refine ⟨validate_config_raises, fun g c _ => validate_config_raises c, ?_⟩
  intro env
  rw [monitor_init]
  cases hL : env.loadEnvRaises
  · cases hfe : Config.from_env env.getenv with
    | error e => simp [hfe]
    | ok c =>
        cases hS : env.setupLoggingRaises
        · simp [hfe, hS, validate_config_raises c]
        · simp [hfe, hS]
  · simp

/-- Witness for C10: on the empty environment `from_env` yields the default
config, validation of it raises `AttributeError`, and initialization fails
even with every collaborator healthy. -/
theorem c10_monitor_never_initializes_witness :
    validate_config defaultEnvConfig = Except.error PyErr.attributeError ∧
    monitor_init { getenv := fun _ => none, loadEnvRaises := false,
                   setupLoggingRaises := false, dbConnectOk := true,
                   createTablesOk := true, redditConnOk := true } = false :=
  ⟨c10_monitor_never_initializes.2.1 (fun _ => none) defaultEnvConfig
      (by rfl),
   c10_monitor_never_initializes.2.2
     { getenv := fun _ => none, loadEnvRaises := false,
       setupLoggingRaises := false, dbConnectOk := true,
       createTablesOk := true, redditConnOk := true }⟩
